import Mathlib

/-!
Shallow embedding of the AMS operator charm (`src/charm.py`): the
configuration-reconciliation handler `_on_config_changed`, the certificate
issuance helper `_generate_selfsigned_cert`, and the relation-joined handler
`_on_lxd_integrator_joined`, together with the data model they use.

The `ams` module (ETCDConfig, BackendConfig, PrometheusConfig, ServiceConfig)
and the `tls_certificates` library (generate_private_key, generate_ca,
generate_csr, generate_certificate) are code of this repository or of its
declared collaborators that is not under `src/`; those parts are modelled
from the spec, each marked `Modelled from the spec:` in its doc comment.
-/

namespace AmsOperator

/-- The numeric value of a non-empty all-digit character list, `none`
otherwise. -/
def digitsVal? (cs : List Char) : Option Nat :=
  if cs ≠ [] ∧ cs.all (fun c => c.isDigit) then
    some (cs.foldl (fun a c => a * 10 + (c.toNat - 48)) 0)
  else none

/-- Models Python `int()` applied to a string: optional sign followed by
digits parses to an integer, anything else raises (returns `none`). -/
def pyInt? (s : String) : Option Int :=
  match s.data with
  | [] => none
  | c :: rest =>
    if c = '-' then (digitsVal? rest).map fun n => -(n : Int)
    else if c = '+' then (digitsVal? rest).map fun n => (n : Int)
    else (digitsVal? (c :: rest)).map fun n => (n : Int)

/-- Split a character list on a separator character; the empty list splits
into one empty piece, as Python `str.split(sep)` does. -/
def splitChars (sep : Char) : List Char → List Char → List (List Char)
  | [], acc => [acc.reverse]
  | c :: rest, acc =>
    if c = sep then acc.reverse :: splitChars sep rest []
    else splitChars sep rest (c :: acc)

/-- Python `str.split(sep)` with an explicit one-character separator: the
empty string splits into one empty element. -/
def pySplit (s : String) (sep : Char) : List String :=
  (splitChars sep s.data []).map String.mk

/-- Modelled from the spec: `StoreConfig` (named `ETCDConfig` in the code,
imported from the `ams` module that is not under `src/`):
`{use_embedded : bool, servers : ordered sequence of connection strings}`. -/
structure ETCDConfig where
  use_embedded : Bool
  servers : List String
deriving DecidableEq, Repr

/-- Modelled from the spec: invariant of `StoreConfig`:
`is_ready` iff `use_embedded` is true or `servers` is non-empty. -/
def ETCDConfig.is_ready (c : ETCDConfig) : Bool :=
  c.use_embedded || !c.servers.isEmpty

/-- Modelled from the spec: `BackendConfig` from the `ams` module:
`{port_range, project_identifier, force_tls12, use_network_acl, optional
metrics_server endpoint}`. -/
structure BackendConfig where
  port_range : String
  lxd_project : String
  force_tls12 : Bool
  use_network_acl : Bool
  metrics_server : Option String
deriving DecidableEq, Repr

/-- Modelled from the spec: `MetricsConfig` (named `PrometheusConfig` in the
code, from the `ams` module): bind ip, port, optional TLS material paths,
optional basic-auth credentials, extra labels, metrics path. -/
structure PrometheusConfig where
  ip : String
  port : Int
  tls_cert_path : String
  tls_key_path : String
  basic_auth_username : String
  basic_auth_password : String
  extra_labels : String
  metrics_path : String
deriving DecidableEq, Repr

/-- Modelled from the spec: `ServiceConfig` from the `ams` module:
`{bind_ip, port, log_level, MetricsConfig, BackendConfig, StoreConfig}`. -/
structure ServiceConfig where
  ip : String
  port : Int
  log_level : String
  metrics : PrometheusConfig
  backend : BackendConfig
  store : ETCDConfig
deriving DecidableEq, Repr

/-- The raw charm configuration keys read by `_on_config_changed`
(`self.config[...]`). Numeric keys are carried as strings so that the
`int(...)` coercions performed by the handler are explicit. -/
structure RawConfig where
  use_embedded_etcd : Bool
  port_range : String
  lxd_project : String
  force_tls12 : Bool
  use_network_acl : Bool
  metrics_server : String
  prometheus_target_port : String
  prometheus_tls_cert_path : String
  prometheus_tls_key_path : String
  prometheus_basic_auth_username : String
  prometheus_basic_auth_password : String
  prometheus_extra_labels : String
  prometheus_metrics_path : String
  location : String
  port : String
  log_level : String
deriving DecidableEq, Repr

/-- State of the etcd endpoint consumer as seen by the handler:
`self.etcd.is_available` and
`self.etcd.get_config().get("connection_string", "")`. -/
structure EtcdState where
  is_available : Bool
  connection_string : String
deriving DecidableEq, Repr

/-- Unit status values used by the handler (`ops.model`). -/
inductive OpsStatus where
  | waiting : String → OpsStatus
  | blocked : String → OpsStatus
  | active : OpsStatus
deriving DecidableEq, Repr

/-- Observable outcome of one `_on_config_changed` run: the final unit
status and the side effects applied to the managed snap
(`self._snap.configure(cfg)`, `self._snap.set_location(location, port)`,
`self.unit.set_ports(int(port))`). -/
structure RunResult where
  status : OpsStatus
  configured : Option ServiceConfig
  location : Option (String × String)
  openedPorts : Option Int
deriving DecidableEq, Repr

/-- The blocked early-return of `_on_config_changed`
(`BlockedStatus("Waiting for etcd")`, no snap side effects). -/
def blockedRun : RunResult :=
  { status := OpsStatus.blocked "Waiting for etcd"
    configured := none
    location := none
    openedPorts := none }

/-- Lines 80-87 of `charm.py`: build `BackendConfig` from raw settings and,
when the `metrics_server` setting is truthy (non-empty), set the composite
endpoint string built by the f-string `f"influxdb:{...}"`. -/
def mkBackend (c : RawConfig) : BackendConfig :=
  let b : BackendConfig :=
    { port_range := c.port_range
      lxd_project := c.lxd_project
      force_tls12 := c.force_tls12
      use_network_acl := c.use_network_acl
      metrics_server := none }
  if c.metrics_server != "" then
    { b with metrics_server := some (String.append "influxdb:" c.metrics_server) }
  else b

/-- Lines 89-106 of `charm.py`: the `PrometheusConfig` and `ServiceConfig`
assembled on the successful path, given the already-coerced port numbers. -/
def mkService (c : RawConfig) (privateIp : String) (st : ETCDConfig)
    (pport port : Int) : ServiceConfig :=
  { ip := privateIp
    port := port
    log_level := c.log_level
    metrics :=
      { ip := privateIp
        port := pport
        tls_cert_path := c.prometheus_tls_cert_path
        tls_key_path := c.prometheus_tls_key_path
        basic_auth_username := c.prometheus_basic_auth_username
        basic_auth_password := c.prometheus_basic_auth_password
        extra_labels := c.prometheus_extra_labels
        metrics_path := c.prometheus_metrics_path }
    backend := mkBackend c
    store := st }

/-- The successful tail of `_on_config_changed` (lines 89-110): apply the
`ServiceConfig`, set the location, open the port, go `ActiveStatus`. -/
def mkSuccess (c : RawConfig) (privateIp : String) (st : ETCDConfig)
    (pport port : Int) : RunResult :=
  { status := OpsStatus.active
    configured := some (mkService c privateIp st pport port)
    location := some (c.location, c.port)
    openedPorts := some port }

/-- Lines 80-110 of `_on_config_changed`: everything after the store gate.
The two `int(...)` coercions are evaluated in source order
(`prometheus_target_port` first, then `port`); a parse failure raises, which
is modelled as `Except.error`. -/
def finishConfig (c : RawConfig) (privateIp : String) (st : ETCDConfig) :
    Except String RunResult :=
  match pyInt? c.prometheus_target_port with
  | none => Except.error (String.append "invalid literal for int: " c.prometheus_target_port)
  | some pport =>
    match pyInt? c.port with
    | none => Except.error (String.append "invalid literal for int: " c.port)
    | some port => Except.ok (mkSuccess c privateIp st pport port)

/-- `_on_config_changed` (lines 65-110 of `charm.py`): build the
`ETCDConfig` from `use_embedded_etcd`; if it is not ready, gate on etcd
availability and on the connection-string split; otherwise assemble and
apply the `ServiceConfig`. -/
def onConfigChanged (c : RawConfig) (privateIp : String) (e : EtcdState) :
    Except String RunResult :=
  let st : ETCDConfig := { use_embedded := c.use_embedded_etcd, servers := [] }
  if st.is_ready then
    finishConfig c privateIp st
  else if e.is_available = false then
    Except.ok blockedRun
  else
    let servers := pySplit e.connection_string ','
    if servers.isEmpty then
      Except.ok blockedRun
    else
      finishConfig c privateIp { st with servers := servers }

/-- The `ServiceConfig` applied by a run, if any (`none` for blocked runs
and for raised exceptions). -/
def runConfigured : Except String RunResult → Option ServiceConfig
  | Except.ok r => r.configured
  | Except.error _ => none

/-- The final unit status of a run, if the run did not raise. -/
def runStatus : Except String RunResult → Option OpsStatus
  | Except.ok r => some r.status
  | Except.error _ => none

/-- The most-recently-applied `ServiceConfig` after a run: replaced on a
successful reconciliation, unchanged otherwise. -/
def applyRun (prev : Option ServiceConfig) (res : Except String RunResult) :
    Option ServiceConfig :=
  match runConfigured res with
  | some svc => some svc
  | none => prev

/-- Whether a run raised an exception out of the handler. -/
def runRaised : Except String RunResult → Bool
  | Except.ok _ => false
  | Except.error _ => true

/-- Modelled from the spec: a private key produced by
`generate_private_key(key_size)` from the `tls_certificates` library (not
under `src/`). Every call yields fresh key material, modelled by the
generation counter `id` threaded through the issuance call; `size` is the
requested key size in bits. -/
structure PrivateKey where
  id : Nat
  size : Nat
deriving DecidableEq, Repr

/-- Modelled from the spec: `generate_private_key(key_size)` returns a
fresh key, distinct from every other generated key. -/
def generatePrivateKey (size : Nat) (ctr : Nat) : PrivateKey × Nat :=
  (⟨ctr, size⟩, ctr + 1)

/-- Modelled from the spec: a self-signed CA certificate: its subject and
the key it is derived from (and self-signed by). -/
structure CACert where
  subject : String
  key : PrivateKey
deriving DecidableEq, Repr

/-- Modelled from the spec: `generate_ca(ca_key, hostname)` derives a
self-signed CA certificate with subject = hostname from the CA key. -/
def generateCA (ca_key : PrivateKey) (hostname : String) : CACert :=
  { subject := hostname, key := ca_key }

/-- Modelled from the spec: a certificate signing request: the leaf key it
is built for, its subject, and its DNS and IP Subject Alternative Names. -/
structure CSR where
  key : PrivateKey
  subject : String
  sans_dns : List String
  sans_ip : List String
deriving DecidableEq, Repr

/-- Modelled from the spec: `generate_csr(private_key, subject, sans_dns,
sans_ip)` builds a CSR for the leaf key carrying exactly the given subject
and SAN lists. -/
def generateCSR (key : PrivateKey) (subject : String)
    (sans_dns sans_ip : List String) : CSR :=
  { key := key, subject := subject, sans_dns := sans_dns, sans_ip := sans_ip }

/-- Modelled from the spec: a leaf certificate: the CSR content it
certifies, the CA certificate presented at signing, and the key that
actually signed it. -/
structure Certificate where
  csr : CSR
  ca : CACert
  caKey : PrivateKey
deriving DecidableEq, Repr

/-- Modelled from the spec: `generate_certificate(csr, ca, ca_key)` signs
the CSR with the CA key to produce the leaf certificate. -/
def generateCertificate (csr : CSR) (ca : CACert) (ca_key : PrivateKey) :
    Certificate :=
  { csr := csr, ca := ca, caKey := ca_key }

/-- Modelled from the spec: a leaf certificate verifies against a CA
certificate exactly when it was signed with that CA certificate and the key
the CA certificate is derived from. -/
def Certificate.verifiesAgainst (cert : Certificate) (ca : CACert) : Prop :=
  cert.ca = ca ∧ cert.caKey = ca.key

instance (cert : Certificate) (ca : CACert) :
    Decidable (cert.verifiesAgainst ca) := by
  unfold Certificate.verifiesAgainst
  infer_instance

/-- `_generate_selfsigned_cert(hostname, public_ip, private_ip)` (lines
118-139 of `charm.py`): reject any empty identity input (raising, with no
key generated), then generate the CA key, derive the CA certificate with
subject = hostname, generate a separate leaf key, build the CSR with
subject = hostname and SANs `[public_ip, private_ip, hostname]` (DNS) and
`[public_ip, private_ip]` (IP), sign it with the CA, and return the pair
(leaf certificate, leaf key). The key-generation counter is threaded
explicitly and returned alongside the result. -/
def generateSelfsignedCert (hostname public_ip private_ip : String)
    (ctr : Nat) : Except String (Certificate × PrivateKey) × Nat :=
  if hostname = "" then
    (Except.error "A hostname is required", ctr)
  else if public_ip = "" then
    (Except.error "A public IP is required", ctr)
  else if private_ip = "" then
    (Except.error "A private IP is required", ctr)
  else
    let (ca_key, ctr₁) := generatePrivateKey 4096 ctr
    let ca_cert := generateCA ca_key hostname
    let (key, ctr₂) := generatePrivateKey 4096 ctr₁
    let csr := generateCSR key hostname
      [public_ip, private_ip, hostname] [public_ip, private_ip]
    let cert := generateCertificate csr ca_cert ca_key
    (Except.ok (cert, key), ctr₂)

/-- Observable outcome of `_on_lxd_integrator_joined`: the certificate and
key handed to `self._snap.setup_lxd`, and the certificate list published on
the relation as `client_certificates`. -/
structure JoinResult where
  cert : Certificate
  key : PrivateKey
  published : List Certificate
deriving DecidableEq, Repr

/-- `_on_lxd_integrator_joined` (lines 112-116 of `charm.py`): issue a
certificate with the arguments `(public_ip, public_ip, private_ip)` — the
unit's public IP is passed as the hostname — forward it to the snap, and
publish the leaf certificate on the relation. -/
def onLxdIntegratorJoined (public_ip private_ip : String) (ctr : Nat) :
    Except String JoinResult × Nat :=
  match generateSelfsignedCert public_ip public_ip private_ip ctr with
  | (Except.ok (cert, key), n) =>
    (Except.ok { cert := cert, key := key, published := [cert] }, n)
  | (Except.error msg, n) => (Except.error msg, n)

/-! Concrete fixtures used by the theorems and witnesses below. -/

/-- A baseline raw configuration: well-formed numeric fields, external
etcd, no metrics server. -/
def cfgBase : RawConfig :=
  { use_embedded_etcd := false
    port_range := "10000-11000"
    lxd_project := "ams"
    force_tls12 := false
    use_network_acl := false
    metrics_server := ""
    prometheus_target_port := "9100"
    prometheus_tls_cert_path := ""
    prometheus_tls_key_path := ""
    prometheus_basic_auth_username := ""
    prometheus_basic_auth_password := ""
    prometheus_extra_labels := ""
    prometheus_metrics_path := "/metrics"
    location := ""
    port := "8444"
    log_level := "info" }

/-- Baseline with the embedded store enabled. -/
def cfgEmbedded : RawConfig :=
  { cfgBase with use_embedded_etcd := true }

/-- Baseline with a malformed (non-integer) `port` value. -/
def cfgBadPort : RawConfig :=
  { cfgEmbedded with port := "abc" }

/-- Etcd available with an empty connection string. -/
def etcdEmptyConn : EtcdState :=
  { is_available := true, connection_string := "" }

/-- Etcd available with connection string `"a,b,c"`. -/
def etcdABC : EtcdState :=
  { is_available := true, connection_string := "a,b,c" }

/-- Etcd not yet available. -/
def etcdDown : EtcdState :=
  { is_available := false, connection_string := "" }

/-- Baseline with embedded store and a non-empty metrics server setting. -/
def cfgMetrics : RawConfig :=
  { cfgEmbedded with metrics_server := "10.1.1.1:8086" }

/-! Helper lemmas shared by the claim theorems. -/

lemma finishConfig_ok_shape (c : RawConfig) (privateIp : String)
    (st : ETCDConfig) (r : RunResult)
    (h : finishConfig c privateIp st = Except.ok r) :
    ∃ pp p, pyInt? c.prometheus_target_port = some pp ∧
      pyInt? c.port = some p ∧ r = mkSuccess c privateIp st pp p := by
  unfold finishConfig at h
  cases hpp : pyInt? c.prometheus_target_port with
  | none => rw [hpp] at h; exact absurd h (by simp)
  | some pp =>
    rw [hpp] at h
    cases hp : pyInt? c.port with
    | none => rw [hp] at h; exact absurd h (by simp)
    | some p =>
      rw [hp] at h
      exact ⟨pp, p, rfl, rfl, Except.ok.inj h.symm⟩

lemma finishConfig_not_raised (c : RawConfig) (privateIp : String)
    (st : ETCDConfig)
    (hpp : pyInt? c.prometheus_target_port ≠ none)
    (hp : pyInt? c.port ≠ none) :
    runRaised (finishConfig c privateIp st) = false := by
  unfold finishConfig
  cases h1 : pyInt? c.prometheus_target_port with
  | none => exact absurd h1 hpp
  | some pp =>
    cases h2 : pyInt? c.port with
    | none => exact absurd h2 hp
    | some p => rfl

lemma onConfigChanged_ok_shape (c : RawConfig) (privateIp : String)
    (e : EtcdState) (r : RunResult)
    (h : onConfigChanged c privateIp e = Except.ok r) :
    r = blockedRun ∨
      ∃ st pp p, r = mkSuccess c privateIp st pp p := by
  unfold onConfigChanged at h
  by_cases h1 : (ETCDConfig.mk c.use_embedded_etcd []).is_ready
  · rw [if_pos h1] at h
    obtain ⟨pp, p, _, _, hr⟩ := finishConfig_ok_shape _ _ _ _ h
    exact Or.inr ⟨_, pp, p, hr⟩
  · rw [if_neg h1] at h
    by_cases h2 : e.is_available = false
    · rw [if_pos h2] at h
      exact Or.inl (Except.ok.inj h.symm)
    · rw [if_neg h2] at h
      by_cases h3 : (pySplit e.connection_string ',').isEmpty
      · rw [if_pos h3] at h
        exact Or.inl (Except.ok.inj h.symm)
      · rw [if_neg h3] at h
        obtain ⟨pp, p, _, _, hr⟩ := finishConfig_ok_shape _ _ _ _ h
        exact Or.inr ⟨_, pp, p, hr⟩

lemma mkBackend_metrics (c : RawConfig) :
    (c.metrics_server ≠ "" →
      (mkBackend c).metrics_server =
        some (String.append "influxdb:" c.metrics_server)) ∧
    (c.metrics_server = "" → (mkBackend c).metrics_server = none) := by
  unfold mkBackend
  by_cases h : c.metrics_server = ""
  · simp [h]
  · simp [h]

/-! Claim theorems. -/

/-- Claim C1: the claim says that with `use_embedded_store = false`, the
store available and an empty connection string, reconciliation treats the
split result (one empty element) as no servers and returns NotReady
(Blocked). The code does the opposite: `"".split(",")` yields `[""]`, which
is truthy, so the dead `if not servers` guard never fires; the run
populates `servers = [""]`, applies a `ServiceConfig` and goes Active.
This theorem evaluates the handler at that failing input. -/
theorem C1_empty_connection_string_yields_active_config :
    runStatus (onConfigChanged cfgBase "10.0.0.2" etcdEmptyConn) =
      some OpsStatus.active ∧
    ((runConfigured (onConfigChanged cfgBase "10.0.0.2" etcdEmptyConn)).map
      fun svc => svc.store) = some (ETCDConfig.mk false [""]) := by
  decide

/-- Claim C2, counterexample: the claim says the reconciliation engine
never raises for malformed numeric fields. But the handler itself performs
the `int(...)` coercions: with `port = "abc"` the run raises (modelled as
`Except.error`), producing neither a `ServiceConfig` nor a NotReady
status. -/
theorem C2_counterexample_nonint_port_raises :
    runRaised (onConfigChanged cfgBadPort "10.0.0.2" etcdDown) = true ∧
    runStatus (onConfigChanged cfgBadPort "10.0.0.2" etcdDown) = none ∧
    runConfigured (onConfigChanged cfgBadPort "10.0.0.2" etcdDown) = none := by
  decide

/-- Claim C2, amended: the reconciliation handler performs the numeric
coercions itself and a malformed numeric field makes the run raise (the
failure propagates to the caller); whenever the numeric fields
(`prometheus_target_port` and `port`) parse as integers, the handler never
raises and its only outcomes are a `ServiceConfig` or NotReady. -/
theorem C2_amended_raise_only_on_malformed_numeric (c : RawConfig)
    (privateIp : String) (e : EtcdState)
    (hpp : pyInt? c.prometheus_target_port ≠ none)
    (hp : pyInt? c.port ≠ none) :
    runRaised (onConfigChanged c privateIp e) = false := by
  unfold onConfigChanged
  by_cases h1 : (ETCDConfig.mk c.use_embedded_etcd []).is_ready = true
  · rw [if_pos h1]
    exact finishConfig_not_raised c privateIp _ hpp hp
  · rw [if_neg h1]
    by_cases h2 : e.is_available = false
    · rw [if_pos h2]; rfl
    · rw [if_neg h2]
      by_cases h3 : (pySplit e.connection_string ',').isEmpty = true
      · rw [if_pos h3]; rfl
      · rw [if_neg h3]
        exact finishConfig_not_raised c privateIp _ hpp hp

/-- Witness for the amended C2 at a concrete input. -/
theorem C2_amended_witness :
    pyInt? cfgBase.prometheus_target_port ≠ none ∧
    pyInt? cfgBase.port ≠ none ∧
    runRaised (onConfigChanged cfgBase "10.0.0.2" etcdABC) = false :=
  ⟨by decide, by decide,
    C2_amended_raise_only_on_malformed_numeric cfgBase "10.0.0.2" etcdABC
      (by decide) (by decide)⟩

/-- Claim C5: `ETCDConfig.is_ready` holds iff the store is embedded or the
server list is non-empty; and with `use_embedded_etcd = true` the handler
result does not depend on the etcd consumer state at all (neither
availability nor the connection string is consulted). -/
theorem C5_store_ready_iff_embedded_or_servers :
    (∀ cfg : ETCDConfig,
      cfg.is_ready = true ↔ (cfg.use_embedded = true ∨ cfg.servers ≠ [])) ∧
    (∀ (c : RawConfig) (privateIp : String), c.use_embedded_etcd = true →
      ∀ e₁ e₂ : EtcdState,
        onConfigChanged c privateIp e₁ = onConfigChanged c privateIp e₂) := by
  constructor
  · intro cfg
    obtain ⟨emb, servers⟩ := cfg
    cases emb <;> cases servers <;> simp [ETCDConfig.is_ready]
  · intro c privateIp hc e₁ e₂
    have hready : (ETCDConfig.mk c.use_embedded_etcd []).is_ready = true := by
      simp [ETCDConfig.is_ready, hc]
    unfold onConfigChanged
    rw [if_pos hready, if_pos hready]

/-- Witness for C5 at a concrete input: with the embedded store, two runs
against different etcd states coincide. -/
theorem C5_witness :
    cfgEmbedded.use_embedded_etcd = true ∧
    onConfigChanged cfgEmbedded "10.0.0.2" etcdDown =
      onConfigChanged cfgEmbedded "10.0.0.2" etcdABC :=
  ⟨rfl, C5_store_ready_iff_embedded_or_servers.2 cfgEmbedded "10.0.0.2" rfl
    etcdDown etcdABC⟩

/-- Claim C6: with `use_embedded_etcd = false`, the store available and
connection string `"a,b,c"` (and well-formed numeric fields), the run
applies a `ServiceConfig` whose store has `servers = ["a", "b", "c"]` and
`is_ready = true`, and ends Active. -/
theorem C6_connection_string_abc_reconciles (c : RawConfig)
    (privateIp : String) (e : EtcdState) (pp p : Int)
    (hc : c.use_embedded_etcd = false)
    (ha : e.is_available = true)
    (hs : e.connection_string = "a,b,c")
    (hpp : pyInt? c.prometheus_target_port = some pp)
    (hp : pyInt? c.port = some p) :
    ∃ svc, runConfigured (onConfigChanged c privateIp e) = some svc ∧
      svc.store.servers = ["a", "b", "c"] ∧
      svc.store.is_ready = true ∧
      runStatus (onConfigChanged c privateIp e) = some OpsStatus.active := by
  have h1 : ¬ ((ETCDConfig.mk c.use_embedded_etcd []).is_ready = true) := by
    rw [hc]; decide
  have h2 : ¬ (e.is_available = false) := by rw [ha]; decide
  unfold onConfigChanged
  rw [if_neg h1, if_neg h2, hs, hc]
  have h3 : ¬ ((pySplit "a,b,c" ',').isEmpty = true) := by decide
  rw [if_neg h3]
  unfold finishConfig
  rw [hpp, hp]
  exact ⟨_, rfl, rfl, rfl, rfl⟩

/-- Witness for C6 at a concrete input. -/
theorem C6_witness :
    cfgBase.use_embedded_etcd = false ∧ etcdABC.is_available = true ∧
    etcdABC.connection_string = "a,b,c" ∧
    ∃ svc, runConfigured (onConfigChanged cfgBase "10.0.0.2" etcdABC) = some svc ∧
      svc.store.servers = ["a", "b", "c"] ∧
      svc.store.is_ready = true ∧
      runStatus (onConfigChanged cfgBase "10.0.0.2" etcdABC) =
        some OpsStatus.active :=
  ⟨rfl, rfl, rfl,
    C6_connection_string_abc_reconciles cfgBase "10.0.0.2" etcdABC 9100 8444
      rfl rfl rfl (by decide) (by decide)⟩

/-- Claim C7: any run that ends Blocked applies no `ServiceConfig`,
performs no snap side effect (no configure, no location, no opened port),
and leaves the previously applied `ServiceConfig` unchanged. -/
theorem C7_blocked_run_has_no_side_effects (c : RawConfig)
    (privateIp : String) (e : EtcdState) (r : RunResult) (reason : String)
    (hok : onConfigChanged c privateIp e = Except.ok r)
    (hb : r.status = OpsStatus.blocked reason) :
    r.configured = none ∧ r.location = none ∧ r.openedPorts = none ∧
      applyRun none (onConfigChanged c privateIp e) = none ∧
      ∀ prev, applyRun prev (onConfigChanged c privateIp e) = prev := by
  have hr : r = blockedRun := by
    rcases onConfigChanged_ok_shape c privateIp e r hok with h | ⟨st, pp, p, h⟩
    · exact h
    · rw [h] at hb
      exact absurd hb (by simp [mkSuccess])
  subst hr
  refine ⟨rfl, rfl, rfl, ?_, ?_⟩
  · unfold applyRun
    rw [hok]
    rfl
  · intro prev
    unfold applyRun
    rw [hok]
    rfl

/-- Witness for C7 at a concrete input: store not embedded and etcd
unavailable. -/
theorem C7_witness :
    onConfigChanged cfgBase "10.0.0.2" etcdDown = Except.ok blockedRun ∧
    blockedRun.status = OpsStatus.blocked "Waiting for etcd" ∧
    blockedRun.configured = none ∧ blockedRun.location = none ∧
    blockedRun.openedPorts = none ∧
    applyRun none (onConfigChanged cfgBase "10.0.0.2" etcdDown) = none := by
  have h := C7_blocked_run_has_no_side_effects cfgBase "10.0.0.2" etcdDown
    blockedRun "Waiting for etcd" rfl rfl
  exact ⟨rfl, rfl, h.1, h.2.1, h.2.2.1, h.2.2.2.1⟩

/-- Claim C9: on any run that applies a `ServiceConfig`, the backend
carries the composite endpoint `"influxdb:" ++ value` exactly when the
`metrics_server` setting is non-empty, and no endpoint when it is empty. -/
theorem C9_metrics_server_endpoint (c : RawConfig) (privateIp : String)
    (e : EtcdState) (svc : ServiceConfig)
    (h : runConfigured (onConfigChanged c privateIp e) = some svc) :
    (c.metrics_server ≠ "" →
      svc.backend.metrics_server =
        some (String.append "influxdb:" c.metrics_server)) ∧
    (c.metrics_server = "" → svc.backend.metrics_server = none) := by
  have hb : svc.backend = mkBackend c := by
    cases hres : onConfigChanged c privateIp e with
    | error msg =>
      rw [hres] at h
      exact absurd h (by simp [runConfigured])
    | ok r =>
      rcases onConfigChanged_ok_shape c privateIp e r hres with hr | ⟨st, pp, p, hr⟩
      · rw [hres, hr] at h
        exact absurd h (by simp [runConfigured, blockedRun])
      · rw [hres, hr] at h
        have hsvc : svc = mkService c privateIp st pp p := by
          have : some (mkService c privateIp st pp p) = some svc := h
          exact (Option.some.inj this).symm
        rw [hsvc]
        rfl
  rw [hb]
  exact mkBackend_metrics c

/-- Witness for C9 at a concrete input with a non-empty metrics server
setting. -/
theorem C9_witness :
    ∃ svc, runConfigured (onConfigChanged cfgMetrics "10.0.0.2" etcdDown) =
        some svc ∧
      svc.backend.metrics_server = some "influxdb:10.1.1.1:8086" := by
  refine ⟨_, rfl, ?_⟩
  have h := (C9_metrics_server_endpoint cfgMetrics "10.0.0.2" etcdDown _
    rfl).1 (by decide)
  exact h.trans (by decide)

/-- Claim C3: certificate issuance with any empty identity input fails with
the identity-validation error before any key or certificate is generated
(the generation counter is unchanged), and no bundle is returned. -/
theorem C3_empty_identity_rejected (h p q : String) (ctr : Nat)
    (hempty : h = "" ∨ p = "" ∨ q = "") :
    (∃ msg, (generateSelfsignedCert h p q ctr).1 = Except.error msg) ∧
    (generateSelfsignedCert h p q ctr).2 = ctr := by
  unfold generateSelfsignedCert
  by_cases h1 : h = ""
  · rw [if_pos h1]
    exact ⟨⟨_, rfl⟩, rfl⟩
  · rw [if_neg h1]
    by_cases h2 : p = ""
    · rw [if_pos h2]
      exact ⟨⟨_, rfl⟩, rfl⟩
    · rw [if_neg h2]
      by_cases h3 : q = ""
      · rw [if_pos h3]
        exact ⟨⟨_, rfl⟩, rfl⟩
      · exact absurd hempty (by simp [h1, h2, h3])

/-- Witness for C3: `issue("", "1.2.3.4", "10.0.0.1")` fails and generates
nothing. -/
theorem C3_witness :
    ((("" : String) = "" ∨ ("1.2.3.4" : String) = "" ∨
        ("10.0.0.1" : String) = "")) ∧
    (∃ msg, (generateSelfsignedCert "" "1.2.3.4" "10.0.0.1" 0).1 =
        Except.error msg) ∧
    (generateSelfsignedCert "" "1.2.3.4" "10.0.0.1" 0).2 = 0 :=
  ⟨Or.inl rfl, C3_empty_identity_rejected "" "1.2.3.4" "10.0.0.1" 0 (Or.inl rfl)⟩

/-- Claim C4: for non-empty identities, issuance succeeds; the leaf CSR has
subject = hostname, its SAN DNS entries are exactly
{public_ip, private_ip, hostname}, its SAN IP entries are exactly
{public_ip, private_ip}, and the leaf certificate verifies against the CA
certificate generated in the same call. -/
theorem C4_csr_subject_sans_and_ca_verification (h p q : String) (ctr : Nat)
    (h1 : h ≠ "") (h2 : p ≠ "") (h3 : q ≠ "") :
    ∃ cert key n,
      generateSelfsignedCert h p q ctr = (Except.ok (cert, key), n) ∧
      cert.csr.subject = h ∧
      (∀ s, s ∈ cert.csr.sans_dns ↔ (s = p ∨ s = q ∨ s = h)) ∧
      (∀ s, s ∈ cert.csr.sans_ip ↔ (s = p ∨ s = q)) ∧
      cert.verifiesAgainst (generateCA (generatePrivateKey 4096 ctr).1 h) := by
  unfold generateSelfsignedCert
  rw [if_neg h1, if_neg h2, if_neg h3]
  refine ⟨_, _, _, rfl, rfl, ?_, ?_, rfl, rfl⟩
  · intro s
    simp [generateCertificate, generateCSR]
  · intro s
    simp [generateCertificate, generateCSR]

/-- Witness for C4 at concrete identities. -/
theorem C4_witness :
    (("ams.example" : String) ≠ "" ∧ ("5.6.7.8" : String) ≠ "" ∧
      ("10.0.0.2" : String) ≠ "") ∧
    ∃ cert key n,
      generateSelfsignedCert "ams.example" "5.6.7.8" "10.0.0.2" 0 =
        (Except.ok (cert, key), n) ∧
      cert.csr.subject = "ams.example" ∧
      (∀ s, s ∈ cert.csr.sans_dns ↔
        (s = "5.6.7.8" ∨ s = "10.0.0.2" ∨ s = "ams.example")) ∧
      (∀ s, s ∈ cert.csr.sans_ip ↔ (s = "5.6.7.8" ∨ s = "10.0.0.2")) ∧
      cert.verifiesAgainst
        (generateCA (generatePrivateKey 4096 0).1 "ams.example") :=
  ⟨⟨by decide, by decide, by decide⟩,
    C4_csr_subject_sans_and_ca_verification "ams.example" "5.6.7.8"
      "10.0.0.2" 0 (by decide) (by decide) (by decide)⟩

/-- Claim C8: on a successful issuance, the 4096-bit CA key is generated
first, the self-signed CA certificate with subject = hostname is derived
from it, then a separate 4096-bit leaf key distinct from the CA key is
generated (never reusing the CA key), and the returned pair is the leaf
certificate together with the leaf key. -/
theorem C8_ca_and_leaf_key_generation (h p q : String) (ctr : Nat)
    (h1 : h ≠ "") (h2 : p ≠ "") (h3 : q ≠ "") :
    ∃ cert key,
      generateSelfsignedCert h p q ctr = (Except.ok (cert, key), ctr + 2) ∧
      cert.caKey = (generatePrivateKey 4096 ctr).1 ∧
      cert.caKey.size = 4096 ∧
      cert.ca = generateCA cert.caKey h ∧
      cert.ca.subject = h ∧
      key = (generatePrivateKey 4096 (ctr + 1)).1 ∧
      key.size = 4096 ∧
      key ≠ cert.caKey ∧
      cert.caKey.id < key.id ∧
      cert.csr.key = key := by
  unfold generateSelfsignedCert
  rw [if_neg h1, if_neg h2, if_neg h3]
  refine ⟨_, _, rfl, rfl, rfl, rfl, rfl, rfl, rfl, ?_, ?_, rfl⟩
  · intro hkey
    have := congrArg PrivateKey.id hkey
    simp [generatePrivateKey, generateCertificate, generateCA] at this
  · simp [generatePrivateKey, generateCertificate, generateCA]

/-- Witness for C8 at concrete identities. -/
theorem C8_witness :
    (("ams.host" : String) ≠ "" ∧ ("5.6.7.9" : String) ≠ "" ∧
      ("10.0.0.3" : String) ≠ "") ∧
    ∃ cert key,
      generateSelfsignedCert "ams.host" "5.6.7.9" "10.0.0.3" 7 =
        (Except.ok (cert, key), 7 + 2) ∧
      cert.caKey = (generatePrivateKey 4096 7).1 ∧
      cert.caKey.size = 4096 ∧
      cert.ca = generateCA cert.caKey "ams.host" ∧
      cert.ca.subject = "ams.host" ∧
      key = (generatePrivateKey 4096 (7 + 1)).1 ∧
      key.size = 4096 ∧
      key ≠ cert.caKey ∧
      cert.caKey.id < key.id ∧
      cert.csr.key = key :=
  ⟨⟨by decide, by decide, by decide⟩,
    C8_ca_and_leaf_key_generation "ams.host" "5.6.7.9" "10.0.0.3" 7
      (by decide) (by decide) (by decide)⟩

/-- Claim C10: the relation-joined handler issues the certificate with the
unit public IP passed as the hostname argument, so both the CA subject and
the leaf subject equal the public IP, the SAN DNS set collapses to
{public_ip, private_ip}, the SAN IP set is {public_ip, private_ip}, and
the published relation data carries exactly the leaf certificate. -/
theorem C10_join_uses_public_ip_as_hostname (pub priv : String) (ctr : Nat)
    (h1 : pub ≠ "") (h2 : priv ≠ "") :
    ∃ r n, onLxdIntegratorJoined pub priv ctr = (Except.ok r, n) ∧
      r.cert.csr.subject = pub ∧
      r.cert.ca.subject = pub ∧
      (∀ s, s ∈ r.cert.csr.sans_dns ↔ (s = pub ∨ s = priv)) ∧
      (∀ s, s ∈ r.cert.csr.sans_ip ↔ (s = pub ∨ s = priv)) ∧
      r.published = [r.cert] := by
  unfold onLxdIntegratorJoined generateSelfsignedCert
  rw [if_neg h1, if_neg h1, if_neg h2]
  refine ⟨_, _, rfl, rfl, rfl, ?_, ?_, rfl⟩
  · intro s
    simp [generateCSR, generateCertificate]
    tauto
  · intro s
    simp [generateCSR, generateCertificate]

/-- Witness for C10 at concrete addresses. -/
theorem C10_witness :
    (("5.6.7.8" : String) ≠ "" ∧ ("10.0.0.2" : String) ≠ "") ∧
    ∃ r n, onLxdIntegratorJoined "5.6.7.8" "10.0.0.2" 0 = (Except.ok r, n) ∧
      r.cert.csr.subject = "5.6.7.8" ∧
      r.cert.ca.subject = "5.6.7.8" ∧
      (∀ s, s ∈ r.cert.csr.sans_dns ↔ (s = "5.6.7.8" ∨ s = "10.0.0.2")) ∧
      (∀ s, s ∈ r.cert.csr.sans_ip ↔ (s = "5.6.7.8" ∨ s = "10.0.0.2")) ∧
      r.published = [r.cert] :=
  ⟨⟨by decide, by decide⟩,
    C10_join_uses_public_ip_as_hostname "5.6.7.8" "10.0.0.2" 0
      (by decide) (by decide)⟩

end AmsOperator
